import Mathlib

/-!
Verification of the measurement-and-animation controller of
`react-native-marquee` (src/index.js), a self-scrolling text widget.

The embedding follows the source: pixel widths, delays and speeds are
rationals; the mutable instance fields of the `MarqueeText` component
(`distance`, `contentFits`, `state.animating`, the animated offset value and
the `timer` slot) form the state record `MT`; the asynchronous pieces
(`calculateDistance`, `calculateMetrics`, the callback scheduled by `start`)
are explicit state-passing functions, with the JavaScript event order made
explicit where the source omits an `await`.
-/

set_option maxHeartbeats 1000000

namespace RNMarquee

/-- JavaScript number semantics as far as the marquee code exercises them:
finite rationals plus the infinities and NaN that division by zero and
coercing an Error object produce. -/
inductive JsNum where
  | nan : JsNum
  | posInf : JsNum
  | negInf : JsNum
  | fin : ℚ → JsNum
deriving DecidableEq

/-- JavaScript unary minus on numbers (`-x`). -/
def jsNeg : JsNum → JsNum
  | .nan => .nan
  | .posInf => .negInf
  | .negInf => .posInf
  | .fin q => .fin (-q)

/-- JavaScript multiplication on numbers. -/
def jsMul : JsNum → JsNum → JsNum
  | .nan, _ => .nan
  | _, .nan => .nan
  | .posInf, .posInf => .posInf
  | .posInf, .negInf => .negInf
  | .negInf, .posInf => .negInf
  | .negInf, .negInf => .posInf
  | .posInf, .fin b => if 0 < b then .posInf else if b < 0 then .negInf else .nan
  | .fin a, .posInf => if 0 < a then .posInf else if a < 0 then .negInf else .nan
  | .negInf, .fin b => if 0 < b then .negInf else if b < 0 then .posInf else .nan
  | .fin a, .negInf => if 0 < a then .negInf else if a < 0 then .posInf else .nan
  | .fin a, .fin b => .fin (a * b)

/-- JavaScript division on numbers: a nonzero finite value divided by zero is
a signed infinity, `0 / 0` is NaN. -/
def jsDiv : JsNum → JsNum → JsNum
  | .nan, _ => .nan
  | _, .nan => .nan
  | .posInf, .posInf => .nan
  | .posInf, .negInf => .nan
  | .negInf, .posInf => .nan
  | .negInf, .negInf => .nan
  | .posInf, .fin b => if 0 ≤ b then .posInf else .negInf
  | .negInf, .fin b => if 0 ≤ b then .negInf else .posInf
  | .fin _, .posInf => .fin 0
  | .fin _, .negInf => .fin 0
  | .fin a, .fin b =>
      if b = 0 then (if 0 < a then .posInf else if a < 0 then .negInf else .nan)
      else .fin (a / b)

/-- The values the mutable field `this.distance` can hold: `null` (set by the
constructor and by `invalidateMetrics`), a number (successful measurement),
or an Error object (the value `calculateDistance` resolves with on failure,
since its catch block RETURNS `new Error(error)`). -/
inductive DistVal where
  | null : DistVal
  | num : ℚ → DistVal
  | errObj : String → DistVal
deriving DecidableEq

/-- JavaScript ToNumber as applied by unary minus and division to the
`distance` field: `Number(null) = 0`, `Number(someError) = NaN`. -/
def toNumber : DistVal → JsNum
  | .null => .fin 0
  | .num q => .fin q
  | .errObj _ => .nan

/-- The JavaScript comparison `distance > 0` on the possibly non-numeric
`distance` field: `null > 0` is false (null coerces to 0) and
`someError > 0` is false (NaN comparison). -/
def jsGtZero : DistVal → Bool
  | .num q => decide (0 < q)
  | .null => false
  | .errObj _ => false

/-- `shouldAnimate(distance) { return distance > 0; }` — line 190. -/
def shouldAnimate (distance : DistVal) : Bool := jsGtZero distance

/-- Joint outcome of the two concurrent `UIManager.measure` width requests
awaited through `Promise.all` in `calculateDistance`: both widths
(`containerWidth` from the ScrollView ref, `textWidth` from the text ref),
or a single aggregate failure. -/
inductive MeasureOutcome where
  | ok : ℚ → ℚ → MeasureOutcome
  | failure : String → MeasureOutcome
deriving DecidableEq

/-- `calculateDistance` — lines 204-223.  `Except.ok` models a resolved
promise, `Except.error` a rejected one.  On success it resolves with
`containerWidth - textWidth`.  On failure its catch block executes
`return new Error(error)`: the promise still RESOLVES, carrying the Error
object as its value, so the `Except.error` branch never occurs. -/
def calculateDistance : MeasureOutcome → Except String DistVal
  | .ok containerWidth textWidth => .ok (.num (containerWidth - textWidth))
  | .failure e => .ok (.errObj e)

/-- The mutable state of one `MarqueeText` instance: the untyped instance
fields `distance` and `contentFits`, the React state flag `animating`, the
animated offset value, and the `timer` slot holding the delay (ms) of the
pending `setTimeout` callback, if any.  (The only callback the component
ever schedules is the start callback, so recording the delay identifies the
pending work.) -/
structure MT where
  distance : DistVal
  contentFits : Bool
  animating : Bool
  offset : ℚ
  timer : Option ℚ
deriving DecidableEq

/-- `invalidateMetrics` — lines 225-230. -/
def invalidateMetrics (s : MT) : MT :=
  { s with distance := .null, contentFits := false }

/-- The state right after the constructor (lines 94-108): offset 0,
`contentFits = false`, `distance = null`, not animating, no timer. -/
def initialMT : MT :=
  { distance := .null, contentFits := false, animating := false,
    offset := 0, timer := none }

/-- `calculateMetrics` — lines 194-202 — once its awaited
`calculateDistance` promise has settled: assigns `this.distance` and
`this.contentFits = !this.shouldAnimate(this.distance)`; the catch block
(`console.warn(error)`) runs only if `calculateDistance` rejected.  Returns
the updated state and whether `console.warn` fired. -/
def calculateMetrics (m : MeasureOutcome) (s : MT) : MT × Bool :=
  match calculateDistance m with
  | .ok v => ({ s with distance := v, contentFits := ! shouldAnimate v }, false)
  | .error _ => (s, true)

/-- The configuration record handed to `Animated.timing` by the start
callback (lines 165-168): target offset and duration in milliseconds. -/
structure AnimCmd where
  toValue : JsNum
  duration : JsNum
deriving DecidableEq

/-- The body of the callback that `start` schedules (lines 157-180).
`this.calculateMetrics()` is invoked WITHOUT `await`; being an async
function it runs only up to its first suspension (awaiting
`calculateDistance`, which itself awaits `Promise.all` of the two
measurement promises) before yielding, so neither `this.distance` nor
`this.contentFits` is updated before the `if (!this.contentFits)` test
runs.  The test and the `Animated.timing` configuration therefore read the
values held BEFORE the re-measurement completes; the re-measurement lands
in a later microtask (`startCallbackThenMetrics` composes the two in that
event order).  When the stale `contentFits` is false the component sets
`animating` and issues `Animated.timing(toValue: -this.distance,
duration: this.distance / speed * 1000)` with the stale distance. -/
def startCallback (speed : ℚ) (s : MT) : MT × Option AnimCmd :=
  if ! s.contentFits then
    ({ s with animating := true },
      some { toValue := jsNeg (toNumber s.distance),
             duration := jsMul (jsDiv (toNumber s.distance) (.fin speed)) (.fin 1000) })
  else (s, none)

/-- The actual event order of one scheduled start callback whose kicked-off
re-measurement eventually settles with outcome `m`: the synchronous body of
the callback first, the deferred `calculateMetrics` field updates after. -/
def startCallbackThenMetrics (speed : ℚ) (m : MeasureOutcome) (s : MT) :
    MT × Option AnimCmd :=
  let p := startCallback speed s
  ((calculateMetrics m p.1).1, p.2)

/-- Modelled from the spec (§4.4, the order claim C2 asserts): the scheduled
callback first completes the re-measurement and only then tests
`contentFits` — i.e. the code with an `await` in front of
`this.calculateMetrics()`.  For comparison with `startCallbackThenMetrics`,
the order the source actually produces. -/
def metricsThenStartCallback (speed : ℚ) (m : MeasureOutcome) (s : MT) :
    MT × Option AnimCmd :=
  startCallback speed (calculateMetrics m s).1

/-- `start(timeDelay)` — lines 154-183 — up to the moment the callback is
scheduled: `this.setTimeout(callback, timeDelay)` clears any pending timer
and stores the new one (replacing the `timer` slot). -/
def start (timeDelay : ℚ) (s : MT) : MT :=
  { s with timer := some timeDelay }

/-- `startAnimation(timeDelay)` — lines 131-137: returns immediately when
already animating, otherwise calls `start`. -/
def startAnimation (timeDelay : ℚ) (s : MT) : MT :=
  if s.animating then s else start timeDelay s

/-- `stop` — lines 185-188: offset to 0, `animating` to false. -/
def stop (s : MT) : MT :=
  { s with offset := 0, animating := false }

/-- `resetAnimation` — lines 146-152: computes
`Math.max(100, this.props.marqueeResetDelay)`, sets the offset to 0, sets
`animating` to false, and in the `setState` completion callback (hence with
`animating` already false) calls `startAnimation` with that floored
delay. -/
def resetAnimation (marqueeResetDelayProp : ℚ) (s : MT) : MT :=
  startAnimation (max 100 marqueeResetDelayProp)
    { s with offset := 0, animating := false }

/-- The completion callback passed to `Animated.timing(...).start` (lines
169-178): on `finished = true`, loop → `resetAnimation`, no loop → `stop`
then `onMarqueeComplete()`; on `finished = false` nothing happens.  Returns
the new state and whether `onMarqueeComplete` was invoked. -/
def animEndCallback (loop : Bool) (marqueeResetDelayProp : ℚ)
    (finished : Bool) (s : MT) : MT × Bool :=
  if finished then
    if loop then (resetAnimation marqueeResetDelayProp s, false)
    else (stop s, true)
  else (s, false)

/-- The configuration options of `MarqueeText` that carry behaviour
(`style` is presentation only; `onMarqueeComplete` is modelled separately
as a function). -/
structure Props where
  speed : ℚ
  loop : Bool
  marqueeOnStart : Bool
  marqueeDelay : ℚ
  marqueeResetDelay : ℚ
  useNativeDriver : Bool
deriving DecidableEq

/-- `MarqueeText.defaultProps` — lines 83-92. -/
def defaultProps : Props :=
  { speed := 100, loop := false, marqueeOnStart := false,
    marqueeDelay := 0, marqueeResetDelay := 0, useNativeDriver := true }

/-- The default `onMarqueeComplete: () => {}` — line 90. -/
def defaultOnMarqueeComplete : Unit → Unit := fun _ => ()

/-! ## Host-level model of the timer wrappers

`setTimeout`/`clearTimeout` wrappers, lines 235-249, at the granularity of
host timer handles: `handle` is the instance field `this.timer`, `live` the
callbacks the host still holds pending for this instance, `fresh` the next
handle the host will hand out. -/

structure TimerState where
  handle : Option ℕ
  live : List ℕ
  fresh : ℕ
deriving DecidableEq

/-- The timer state of a freshly constructed instance: `this.timer`
unset, nothing pending. -/
def timerStart : TimerState := { handle := none, live := [], fresh := 0 }

/-- `clearTimeout` (the component method, lines 235-241): if `this.timer`
is set, clear that host timer and null the field; otherwise do nothing. -/
def mtClearTimeout (t : TimerState) : TimerState :=
  match t.handle with
  | some h => { handle := none, live := t.live.erase h, fresh := t.fresh }
  | none => t

/-- `setTimeout` (the component method, lines 246-249): first
`this.clearTimeout()`, then store the fresh host handle in `this.timer`. -/
def mtSetTimeout (t : TimerState) : TimerState :=
  let t1 := mtClearTimeout t
  { handle := some t1.fresh, live := t1.fresh :: t1.live, fresh := t1.fresh + 1 }

/-- The operations that can touch the timer slot: the component scheduling
(`setTimeout`), the component cancelling (`clearTimeout`), and the host
firing the pending callback (which removes it from the host queue while the
instance field keeps the stale handle, exactly as in the source, which does
not null `this.timer` when the callback runs). -/
inductive TimerOp where
  | sched : TimerOp
  | cancel : TimerOp
  | fire : TimerOp
deriving DecidableEq

/-- One step of the timer model. -/
def timerStep (t : TimerState) : TimerOp → TimerState
  | .sched => mtSetTimeout t
  | .cancel => mtClearTimeout t
  | .fire => { handle := t.handle, live := t.live.tail, fresh := t.fresh }

/-- Run a sequence of timer operations from the fresh-instance state. -/
def timerRun (ops : List TimerOp) : TimerState :=
  ops.foldl timerStep timerStart

/-- Invariant tying the instance field to the host queue: either nothing is
pending and `this.timer` is clear, or `this.timer` holds some handle and the
host queue is empty (callback already fired or cleared by the host view) or
exactly that one handle. -/
def TimerInv (t : TimerState) : Prop :=
  (t.handle = none ∧ t.live = []) ∨
    ∃ h, t.handle = some h ∧ (t.live = [] ∨ t.live = [h])

theorem timerInv_start : TimerInv timerStart := by
  left
  exact ⟨rfl, rfl⟩

theorem timerInv_clear (t : TimerState) (ht : TimerInv t) :
    (mtClearTimeout t).handle = none ∧ (mtClearTimeout t).live = [] := by
  rcases ht with ⟨hh, hl⟩ | ⟨h, hh, hl⟩
  · simp [mtClearTimeout, hh, hl]
  · rcases hl with hl | hl <;> simp [mtClearTimeout, hh, hl]

theorem timerInv_step (t : TimerState) (op : TimerOp) (ht : TimerInv t) :
    TimerInv (timerStep t op) := by
  cases op with
  | sched =>
      obtain ⟨hh, hl⟩ := timerInv_clear t ht
      right
      refine ⟨(mtClearTimeout t).fresh, ?_, Or.inr ?_⟩ <;>
        simp [timerStep, mtSetTimeout, hl]
  | cancel =>
      obtain ⟨hh, hl⟩ := timerInv_clear t ht
      left
      exact ⟨hh, hl⟩
  | fire =>
      rcases ht with ⟨hh, hl⟩ | ⟨h, hh, hl⟩
      · left
        simp [timerStep, hh, hl]
      · right
        refine ⟨h, by simp [timerStep, hh], Or.inl ?_⟩
        rcases hl with hl | hl <;> simp [timerStep, hl]

theorem timerInv_foldl (ops : List TimerOp) :
    ∀ t : TimerState, TimerInv t → TimerInv (ops.foldl timerStep t) := by
  induction ops with
  | nil => intro t ht; simpa using ht
  | cons op rest ih =>
      intro t ht
      simpa using ih (timerStep t op) (timerInv_step t op ht)

theorem timerInv_length (t : TimerState) (ht : TimerInv t) :
    t.live.length ≤ 1 := by
  rcases ht with ⟨_, hl⟩ | ⟨h, _, hl | hl⟩ <;> simp [hl]

/-! ## Claims -/

/-- C1: the spec claims that for `containerWidth < contentWidth` the computed
distance is `contentWidth - containerWidth > 0` and the animation starts
toward `-distance`; concretely at `containerWidth = 100`,
`contentWidth = 250`, `speed = 100` it claims `distance = 150`,
`duration = 1500` ms, final offset `-150`.  The code computes
`containerWidth - textWidth` (line 219), so at this input the measured
distance is `-150`, `contentFits` becomes true, and the decision taken on
the freshly measured state issues no animation command at all. -/
theorem C1_overflow_sign_bug :
    (calculateMetrics (.ok 100 250) initialMT).1.distance = .num (-150) ∧
    (calculateMetrics (.ok 100 250) initialMT).1.contentFits = true ∧
    (startCallback 100 (calculateMetrics (.ok 100 250) initialMT).1).2 = none := by
  refine ⟨?_, ?_, ?_⟩ <;>
    norm_num [calculateMetrics, calculateDistance, shouldAnimate, jsGtZero,
      startCallback, initialMT]

/-- C2: the spec claims the scheduled callback tests the `contentFits`
value produced by the completed re-measurement.  On a fresh instance with
measurement outcome (containerWidth 100, textWidth 250) the completed
re-measurement yields `contentFits = true` (first conjunct), so under the
claim no animation would start (third conjunct, the spec-order model); but
the source invokes `calculateMetrics` without `await`, so the callback
tests the stale constructor value `contentFits = false` and the stale
`distance = null`, and starts a degenerate animation with
`toValue = -null = 0` and `duration = null / speed * 1000 = 0` (second
conjunct, the actual event order). -/
theorem C2_stale_contentFits_bug :
    (calculateMetrics (.ok 100 250) initialMT).1.contentFits = true ∧
    (startCallbackThenMetrics 100 (.ok 100 250) initialMT).2 =
      some { toValue := .fin 0, duration := .fin 0 } ∧
    (metricsThenStartCallback 100 (.ok 100 250) initialMT).2 = none := by
  refine ⟨?_, ?_, ?_⟩ <;>
    norm_num [calculateMetrics, calculateDistance, shouldAnimate, jsGtZero,
      startCallback, startCallbackThenMetrics, metricsThenStartCallback,
      initialMT, toNumber, jsNeg, jsDiv, jsMul]

/-- C3: the spec claims that on measurement failure `calculateDistance`
rejects and the caller (`calculateMetrics`) catches and logs.  In the
source the catch block of `calculateDistance` executes
`return new Error(error)`, so the promise RESOLVES with the Error object
(first conjunct: `Except.ok`, never `Except.error`); `calculateMetrics`
then assigns the Error object to `this.distance`, sets
`contentFits = true` (Error `> 0` is false), and its own catch — the
`console.warn` — never runs (the returned flag is `false`). -/
theorem C3_failure_resolves_bug :
    calculateDistance (.failure "E") = Except.ok (.errObj "E") ∧
    calculateMetrics (.failure "E") initialMT =
      ({ initialMT with distance := .errObj "E", contentFits := true }, false) := by
  refine ⟨?_, ?_⟩ <;>
    simp [calculateMetrics, calculateDistance, shouldAnimate, jsGtZero, initialMT]

/-- C4: the spec claims that for `containerWidth ≥ contentWidth` the
measurement yields `contentFits = true` and no animation starts.  With
`containerWidth = 250`, `textWidth = 100` the code computes
`distance = 250 - 100 = 150 > 0`, sets `contentFits = false`, and the
decision on the freshly measured state starts an animation with
`toValue = -150` and `duration = 1500` ms — scrolling content that fits. -/
theorem C4_fitting_content_animates_bug :
    (calculateMetrics (.ok 250 100) initialMT).1.contentFits = false ∧
    (startCallback 100 (calculateMetrics (.ok 250 100) initialMT).1).2 =
      some { toValue := .fin (-150), duration := .fin 1500 } := by
  refine ⟨?_, ?_⟩ <;>
    norm_num [calculateMetrics, calculateDistance, shouldAnimate, jsGtZero,
      startCallback, initialMT, toNumber, jsNeg, jsDiv, jsMul]

/-- C5: for every positive distance and positive speed, the duration the
start callback passes to `Animated.timing` equals
`distance / speed * 1000` milliseconds (and the target offset is
`-distance`). -/
theorem C5_duration_law (d speed : ℚ) (s : MT) (hd : 0 < d)
    (hs : 0 < speed) (hfit : s.contentFits = false)
    (hdist : s.distance = .num d) :
    (startCallback speed s).2 =
      some { toValue := .fin (-d), duration := .fin (d / speed * 1000) } := by
  have hs0 : speed ≠ 0 := ne_of_gt hs
  simp [startCallback, hfit, hdist, toNumber, jsNeg, jsDiv, jsMul, hs0]

theorem C5_duration_law_witness :
    (startCallback 100 { initialMT with distance := .num 150 }).2 =
      some { toValue := .fin (-(150 : ℚ)), duration := .fin ((150 : ℚ) / 100 * 1000) } :=
  C5_duration_law 150 100 { initialMT with distance := .num 150 }
    (by norm_num) (by norm_num) rfl rfl

/-- C6: for every configured `marqueeResetDelay` (including 0),
`resetAnimation` sets the offset to 0, leaves the controller idle
(`animating = false`), and schedules the restart after
`max(100, marqueeResetDelay)` ms; at `marqueeResetDelay = 0` the scheduled
delay is exactly 100 ms (the floor applies); and with `loop = true` every
`finished = true` completion runs exactly this `resetAnimation`. -/
theorem C6_reset_and_loop (marqueeResetDelayProp : ℚ) (s : MT) :
    (resetAnimation marqueeResetDelayProp s).offset = 0 ∧
    (resetAnimation marqueeResetDelayProp s).animating = false ∧
    (resetAnimation marqueeResetDelayProp s).timer =
      some (max 100 marqueeResetDelayProp) ∧
    (resetAnimation 0 s).timer = some 100 ∧
    (animEndCallback true marqueeResetDelayProp true s).1 =
      resetAnimation marqueeResetDelayProp s := by
  refine ⟨?_, ?_, ?_, ?_, rfl⟩ <;>
    simp [resetAnimation, startAnimation, start, animEndCallback]

/-- C7: calling the public start operation (`startAnimation`) while the
controller is already animating is a no-op: the state — including the
timer slot, the offset and the animating flag — is unchanged, so no second
animation is scheduled and nothing is reset. -/
theorem C7_start_idempotent (timeDelay : ℚ) (s : MT)
    (h : s.animating = true) :
    startAnimation timeDelay s = s := by
  simp [startAnimation, h]

theorem C7_start_idempotent_witness :
    startAnimation 0 { initialMT with animating := true } =
      { initialMT with animating := true } :=
  C7_start_idempotent 0 { initialMT with animating := true } rfl

/-- C8: for every sequence of schedule / cancel / fire operations from a
fresh instance, at most one host callback is ever pending (`setTimeout`
clears the previous timer before scheduling, by definition of
`mtSetTimeout`), and `clearTimeout` with no timer set is a no-op on the
state. -/
theorem C8_single_pending_timer :
    (∀ ops : List TimerOp, (timerRun ops).live.length ≤ 1) ∧
    (∀ t : TimerState, t.handle = none → mtClearTimeout t = t) := by
  constructor
  · intro ops
    exact timerInv_length _ (timerInv_foldl ops timerStart timerInv_start)
  · intro t h
    simp [mtClearTimeout, h]

theorem C8_single_pending_timer_witness :
    (timerRun [.sched, .sched, .fire, .cancel, .sched]).live.length ≤ 1 ∧
    mtClearTimeout timerStart = timerStart :=
  ⟨C8_single_pending_timer.1 [.sched, .sched, .fire, .cancel, .sched],
   C8_single_pending_timer.2 timerStart rfl⟩

/-- C9 counterexample: the claim says computing the animation duration
never silently produces an infinite duration for non-positive speed.  The
source has no guard on `speed`: with the measured distance 150 and
`speed = 0`, the start callback silently passes
`duration = 150 / 0 * 1000 = Infinity` to `Animated.timing`. -/
theorem C9_claim_false :
    (startCallback 0 { initialMT with distance := .num 150 }).2 =
      some { toValue := .fin (-150), duration := .posInf } := by
  norm_num [startCallback, initialMT, toNumber, jsNeg, jsDiv, jsMul]

/-- C9 (amended): the implementation does not guard non-positive speed:
for every positive measured distance, `speed = 0` makes the start callback
silently pass `duration = +Infinity` to the Animation Driver (no rejection,
no branch on `speed` anywhere in `start`). -/
theorem C9_no_speed_guard (d : ℚ) (s : MT) (hd : 0 < d)
    (hfit : s.contentFits = false) (hdist : s.distance = .num d) :
    (startCallback 0 s).2 =
      some { toValue := .fin (-d), duration := .posInf } := by
  simp [startCallback, hfit, hdist, toNumber, jsNeg, jsDiv, jsMul, hd]

theorem C9_no_speed_guard_witness :
    (startCallback 0 { initialMT with distance := .num 150 }).2 =
      some { toValue := .fin (-(150 : ℚ)), duration := .posInf } :=
  C9_no_speed_guard 150 { initialMT with distance := .num 150 }
    (by norm_num) rfl rfl

/-- C10: the defaults of `MarqueeText.defaultProps` are speed 100
pixels/second, loop false, marqueeOnStart false, marqueeDelay 0 ms,
marqueeResetDelay 0 ms, useNativeDriver true, and an `onMarqueeComplete`
that does nothing. -/
theorem C10_default_props :
    defaultProps.speed = 100 ∧ defaultProps.loop = false ∧
    defaultProps.marqueeOnStart = false ∧ defaultProps.marqueeDelay = 0 ∧
    defaultProps.marqueeResetDelay = 0 ∧
    defaultProps.useNativeDriver = true ∧
    defaultOnMarqueeComplete = fun _ => () :=
  ⟨rfl, rfl, rfl, rfl, rfl, rfl, rfl⟩

end RNMarquee
